import Mathlib

/-!
# Verification of the Samarth ETL pipeline and query tools

Shallow embedding of the repository's logical core:

* `et1.py` — `transform_agri_data`, `transform_climate_data`, `load_to_duckdb`;
* `agent.py` — `get_top_crops_by_production`, `get_average_annual_rainfall`.

Modelling conventions:

* A raw tabular cell (a value arriving from the JSON API) is a `Cell`:
  `Cell.null` is a missing value (pandas `NaN`/absent key), `Cell.num q` is a
  value that `pd.to_numeric` parses to the number `q`, and `Cell.text s` is a
  non-null value that `pd.to_numeric(errors='coerce')` cannot parse (it
  coerces it to missing).  Numbers (DuckDB `DOUBLE`, pandas `float64`) are
  modelled exactly as rationals `ℚ`.
* Fields that the pipeline treats purely as strings (`state_name`,
  `district_name`, `crop`, `season`, `subdivision`) are `Option String`
  (`none` = missing).
* Python `str.strip`/`str.title` are modelled character-for-character for
  ASCII data (`pyStrip`, `pyTitle`).
* `float.astype(int)` (numpy) truncates toward zero: `ratTrunc`.
* DuckDB `CAST(DOUBLE AS INTEGER)` rounds to the nearest integer with ties
  to even (`std::nearbyint`, "statistical rounding"): `duckdbCastInt`.
* DuckDB `ILIKE` matches the whole column value against the pattern,
  case-insensitively, with `%`/`_` wildcards: `likeMatch` / `ilike`.
* A DuckDB database is a finite map from table names to the loaded rows;
  `CREATE OR REPLACE TABLE` is a pointwise update.
-/

namespace Samarth

/-- A raw tabular cell as delivered by the data.gov.in API.
`num q` stands for any value that `pd.to_numeric` parses to `q`
(whether it arrived as a JSON number or a numeric string);
`text s` stands for a non-null value that does not parse as a number. -/
inductive Cell where
  | null : Cell
  | num : ℚ → Cell
  | text : String → Cell
deriving DecidableEq

/-- `pd.to_numeric(col, errors='coerce')` on one cell: missing and
unparsable values become missing (`none`). -/
def toNumeric : Cell → Option ℚ
  | Cell.null => none
  | Cell.num q => some q
  | Cell.text _ => none

/-- Python `str.strip()`: remove leading and trailing whitespace. -/
def pyStrip (s : String) : String :=
  String.mk (((s.data.dropWhile Char.isWhitespace).reverse.dropWhile Char.isWhitespace).reverse)

/-- Helper for `pyTitle`: the Boolean records whether the previous
character was alphabetic (Python `str.title` capitalises every letter that
follows a non-letter and lowercases the rest). -/
def pyTitleAux : Bool → List Char → List Char
  | _, [] => []
  | prevAlpha, c :: cs =>
    (if c.isAlpha then (if prevAlpha then c.toLower else c.toUpper) else c)
      :: pyTitleAux c.isAlpha cs

/-- Python `str.title()` (ASCII letters). -/
def pyTitle (s : String) : String :=
  String.mk (pyTitleAux false s.data)

/-- `col.str.strip().str.title()` as applied to the string columns. -/
def cleanStr (s : String) : String :=
  pyTitle (pyStrip s)

/-- numpy `astype(int)` on a float: truncation toward zero. -/
def ratTrunc (q : ℚ) : Int :=
  Int.tdiv q.num (q.den : Int)

/-- DuckDB `CAST(x AS INTEGER)` for a `DOUBLE` `x`: round to the nearest
integer, ties to even (`std::nearbyint` under the default rounding mode,
the "statistical rounding" DuckDB inherits from Postgres float→int casts).
Stated on the integer side: with `f = ⌊q⌋` and fractional part
`r = q - f = (q.num - f * q.den) / q.den`, compare `r` with `1/2` by
comparing `2 * (q.num - f * q.den)` with `q.den`. -/
def duckdbCastInt (q : ℚ) : Int :=
  let f := q.num.fdiv (q.den : Int)
  let twice := 2 * (q.num - f * (q.den : Int))
  if twice < (q.den : Int) then f
  else if (q.den : Int) < twice then f + 1
  else if f % 2 = 0 then f else f + 1

/-! ## Agriculture transform (`et1.py`, `transform_agri_data`) -/

/-- One raw agriculture record, after the column rename/projection step:
the fields the pipeline keeps, under their raw API names. -/
structure RawAgriRecord where
  state_name : Option String
  district_name : Option String
  crop_year : Cell
  season : Option String
  crop : Option String
  area_ : Cell
  production_ : Cell
deriving DecidableEq

/-- One cleaned row of the `agriculture_production` table (§3 of the spec):
output schema of `transform_agri_data`. -/
structure AgriRow where
  state : String
  district : String
  crop : String
  year : Int
  season : Option String
  area_hectare : Cell
  production_tonnes : ℚ
  source_url : String
deriving DecidableEq

/-- The per-record core of `transform_agri_data`: coerce `year` and
`production_tonnes` to numeric, drop the record if `year`,
`production_tonnes`, `state`, `district` or `crop` is missing, cast `year`
to integer, and trim/title-case the three string columns. -/
def transformAgriOne (source_url : String) (rec : RawAgriRecord) : Option AgriRow :=
  match toNumeric rec.crop_year, toNumeric rec.production_,
        rec.state_name, rec.district_name, rec.crop with
  | some y, some p, some st, some di, some cr =>
    some { state := cleanStr st
           district := cleanStr di
           crop := cleanStr cr
           year := ratTrunc y
           season := rec.season
           area_hectare := rec.area_
           production_tonnes := p
           source_url := source_url }
  | _, _, _, _, _ => none

/-- `transform_agri_data(records, source_url)`: clean every record,
dropping the ones that fail (`dropna`). -/
def transform_agri_data (records : List RawAgriRecord) (source_url : String) :
    List AgriRow :=
  records.filterMap (transformAgriOne source_url)

/-! ## Climate transform (`et1.py`, `transform_climate_data`) -/

/-- One raw climate record: a subdivision, a year and the twelve monthly
rainfall columns. -/
structure RawClimateRecord where
  subdivision : Option String
  year : Cell
  jan : Cell
  feb : Cell
  mar : Cell
  apr : Cell
  may : Cell
  jun : Cell
  jul : Cell
  aug : Cell
  sep : Cell
  oct : Cell
  nov : Cell
  dec : Cell
deriving DecidableEq

/-- One cleaned row of the `climate_rainfall` table (§3 of the spec). -/
structure ClimateRow where
  subdivision : String
  year : Int
  month : String
  rainfall_mm : ℚ
  source_url : String
deriving DecidableEq

/-- The twelve melted month columns in `value_vars` order, each with its
accessor (`month_columns_raw` in `et1.py`). -/
def monthGetters : List (String × (RawClimateRecord → Cell)) :=
  [("jan", RawClimateRecord.jan), ("feb", RawClimateRecord.feb),
   ("mar", RawClimateRecord.mar), ("apr", RawClimateRecord.apr),
   ("may", RawClimateRecord.may), ("jun", RawClimateRecord.jun),
   ("jul", RawClimateRecord.jul), ("aug", RawClimateRecord.aug),
   ("sep", RawClimateRecord.sep), ("oct", RawClimateRecord.oct),
   ("nov", RawClimateRecord.nov), ("dec", RawClimateRecord.dec)]

/-- One melted output row of `transform_climate_data`, for one month column
of one record: coerce the month value and the year to numeric, drop the row
if `year`, `rainfall_mm` or `subdivision` is missing, cast the year to
integer, and trim/title-case the subdivision. -/
def transformClimateOne (source_url : String) (m : String)
    (v : Cell) (rec : RawClimateRecord) : Option ClimateRow :=
  match rec.subdivision, toNumeric rec.year, toNumeric v with
  | some sd, some y, some r =>
    some { subdivision := cleanStr sd
           year := ratTrunc y
           month := m
           rainfall_mm := r
           source_url := source_url }
  | _, _, _ => none

/-- `transform_climate_data(records, source_url)`: `pd.melt` stacks the
`value_vars` column-block after column-block (all `jan` rows, then all
`feb` rows, …), then the `dropna`/cast/normalise steps run on the long
table. -/
def transform_climate_data (records : List RawClimateRecord) (source_url : String) :
    List ClimateRow :=
  monthGetters.flatMap fun mg =>
    records.filterMap fun rec => transformClimateOne source_url mg.1 (mg.2 rec) rec

/-! ## `ILIKE` (DuckDB pattern match, case-insensitive) -/

/-- `suffixMatch k s` holds iff the continuation `k` accepts some suffix of
`s` (including `s` itself and the empty suffix): the search a `%` wildcard
performs. -/
def suffixMatch (k : List Char → Bool) : List Char → Bool
  | [] => k []
  | c :: s => k (c :: s) || suffixMatch k s

/-- SQL `LIKE` matching of a whole string against a pattern, compared
case-insensitively (`ILIKE`): `%` matches any sequence, `_` any single
character, every other pattern character matches itself up to case. -/
def likeMatch : List Char → List Char → Bool
  | [] => fun s => s.isEmpty
  | p :: ps =>
    let k := likeMatch ps
    if p = '%' then suffixMatch k
    else if p = '_' then
      fun s =>
        match s with
        | [] => false
        | _ :: s' => k s'
    else
      fun s =>
        match s with
        | [] => false
        | c :: s' => (p.toLower == c.toLower) && k s'

/-- `value ILIKE pattern` on strings. -/
def ilike (pattern value : String) : Bool :=
  likeMatch pattern.data value.data

/-! ## `get_top_crops_by_production` (`agent.py`) -/

/-- One record of the JSON array returned by `get_top_crops_by_production`:
`SELECT crop, CAST(SUM(CAST(production_tonnes AS DOUBLE)) AS INTEGER) AS
total_production, ANY_VALUE(source_url) AS source_url`. -/
structure TopCropRecord where
  crop : String
  total_production : Int
  source_url : String
deriving DecidableEq

/-- Result of `get_top_crops_by_production`: either the literal no-data
sentence (when the query result is empty) or the list of records the
function serialises to JSON. -/
inductive TopCropsResult where
  | message : String → TopCropsResult
  | records : List TopCropRecord → TopCropsResult
deriving DecidableEq

/-- The `WHERE` clause of the top-crops query:
`state ILIKE '{state}' AND CAST(year AS INTEGER) = {year}`
(the `year` column is already an integer, so the cast is the identity). -/
def agriMatches (state : String) (year : Int) (row : AgriRow) : Bool :=
  ilike state row.state && (row.year == year)

/-- Sum of `production_tonnes` over a list of rows (`SUM(CAST(production_tonnes
AS DOUBLE))`; the column is already a `DOUBLE`, so the inner cast is the
identity). -/
def sumProduction (rows : List AgriRow) : ℚ :=
  rows.foldl (fun a r => a + r.production_tonnes) 0

/-- The aggregate record the query builds for one crop group `c`:
the group's production total cast to integer, and `ANY_VALUE(source_url)`
taken as the first row of the group (every `source_url` in the table is
non-null, so `ANY_VALUE` returns one of them). -/
def cropRecord (matched : List AgriRow) (c : String) : TopCropRecord :=
  let grp := matched.filter (fun r => r.crop == c)
  { crop := c
    total_production := duckdbCastInt (sumProduction grp)
    source_url := ((grp.head?).map AgriRow.source_url).getD "" }

/-- `get_top_crops_by_production(state, year, top_m)` over a database whose
`agriculture_production` table holds `db`: filter by the `WHERE` clause,
group by crop, aggregate, `ORDER BY total_production DESC`, `LIMIT top_m`,
and return the no-data sentence when the result set is empty. -/
def get_top_crops_by_production (state : String) (year : Int) (top_m : Nat)
    (db : List AgriRow) : TopCropsResult :=
  let matched := db.filter (agriMatches state year)
  let crops := (matched.map AgriRow.crop).dedup
  let recs := crops.map (cropRecord matched)
  let sorted := List.insertionSort
    (fun a b => b.total_production ≤ a.total_production) recs
  let limited := sorted.take top_m
  if limited.isEmpty then
    TopCropsResult.message
      ("No production data found for " ++ state ++ " in " ++ toString year ++ ".")
  else
    TopCropsResult.records limited

/-! ## `get_average_annual_rainfall` (`agent.py`) -/

/-- The single record of the JSON array returned by
`get_average_annual_rainfall`: `AVG(total_annual_rainfall)` and
`ANY_VALUE(source_url)` over the `YearlyTotals` CTE.  Both are `NULL`
when the CTE is empty. -/
structure AvgRainfallRecord where
  average_annual_rainfall : Option ℚ
  source_url : Option String
deriving DecidableEq

/-- The `WHERE` clause of the rainfall query:
`subdivision ILIKE '{subdivision}' AND year BETWEEN {start_year} AND {end_year}`. -/
def climMatches (subdivision : String) (start_year end_year : Int)
    (row : ClimateRow) : Bool :=
  ilike subdivision row.subdivision &&
    (start_year ≤ row.year) && (row.year ≤ end_year)

/-- Sum of `rainfall_mm` over a list of rows (`SUM(rainfall_mm)`). -/
def sumRainfall (rows : List ClimateRow) : ℚ :=
  rows.foldl (fun a r => a + r.rainfall_mm) 0

/-- `get_average_annual_rainfall(subdivision, start_year, end_year)` over a
database whose `climate_rainfall` table holds `db`: the `YearlyTotals` CTE
groups the matching rows by year (one total and one representative source
URL per year); the outer `SELECT` has no `GROUP BY`, so it always produces
exactly one row — `AVG` of the yearly totals and `ANY_VALUE` of their
source URLs, both `NULL` over an empty CTE.  The function serialises that
one-record list to JSON. -/
def get_average_annual_rainfall (subdivision : String) (start_year end_year : Int)
    (db : List ClimateRow) : List AvgRainfallRecord :=
  let matched := db.filter (climMatches subdivision start_year end_year)
  let years := (matched.map ClimateRow.year).dedup
  let totals := years.map fun y =>
    let grp := matched.filter (fun r => r.year == y)
    (sumRainfall grp, (grp.head?).map ClimateRow.source_url)
  if totals.isEmpty then
    [{ average_annual_rainfall := none, source_url := none }]
  else
    [{ average_annual_rainfall :=
         some ((totals.foldl (fun a t => a + t.1) 0) / (totals.length : ℚ))
       source_url := (totals.head?).bind Prod.snd }]

/-! ## `load_to_duckdb` (`et1.py`) -/

/-- `CREATE OR REPLACE TABLE name AS SELECT * FROM temp_df`: the named
table now holds exactly the registered dataframe; every other table is
untouched. -/
def createOrReplace {α : Type} (name : String) (df : α)
    (db : String → Option α) : String → Option α :=
  fun t => if t = name then some df else db t

/-- `load_to_duckdb(dataframes, db_file)`: create-or-replace each named
table in turn from its dataframe. -/
def load_to_duckdb {α : Type} (dataframes : List (String × α))
    (db : String → Option α) : String → Option α :=
  dataframes.foldl (fun d nf => createOrReplace nf.1 nf.2 d) db

/-! ## Helper lemmas -/

/-- A nonempty list all of whose elements equal `a` deduplicates to `[a]`. -/
lemma dedup_eq_singleton {α : Type} [DecidableEq α] :
    ∀ (l : List α) (a : α), l ≠ [] → (∀ x ∈ l, x = a) → l.dedup = [a] := by
  intro l a hne hall
  induction l with
  | nil => exact absurd rfl hne
  | cons x t ih =>
    have hx : x = a := hall x (List.mem_cons_self x t)
    subst hx
    cases t with
    | nil => simp
    | cons y t' =>
      have hy : y = x := hall y (by simp)
      have ht : (y :: t').dedup = [x] := by
        refine ih (by simp) ?_
        intro z hz
        exact hall z (List.mem_cons_of_mem x hz)
      have hmem : x ∈ y :: t' := by rw [hy]; exact List.mem_cons_self x t'
      rw [List.dedup_cons_of_mem hmem]
      exact ht

/-! ## C9: full replace on reload -/

/-- C9: loading the same table name twice with different dataframes leaves
exactly the second dataframe queryable under that name — a full replace
with no accumulation. -/
theorem c9_load_twice_full_replace {α : Type} (t : String) (df1 df2 : α)
    (db : String → Option α) (hne : df1 ≠ df2) :
    load_to_duckdb [(t, df2)] (load_to_duckdb [(t, df1)] db) t = some df2 ∧
    load_to_duckdb [(t, df2)] (load_to_duckdb [(t, df1)] db) t ≠ some df1 := by
  constructor
  · simp [load_to_duckdb, createOrReplace]
  · simp [load_to_duckdb, createOrReplace]
    intro h
    exact hne h.symm

/-- Witness for C9 at a concrete table and two concrete dataframes. -/
theorem c9_witness :
    load_to_duckdb [("agriculture_production", [1])]
        (load_to_duckdb [("agriculture_production", [0])] (fun _ => (none : Option (List Nat))))
        "agriculture_production" = some [1] ∧
    load_to_duckdb [("agriculture_production", [1])]
        (load_to_duckdb [("agriculture_production", [0])] (fun _ => (none : Option (List Nat))))
        "agriculture_production" ≠ some [0] :=
  c9_load_twice_full_replace "agriculture_production" [0] [1] (fun _ => none) (by decide)

/-! ## C10: empty rainfall match still yields one all-null record -/

/-- C10: when no `climate_rainfall` row matches, `get_average_annual_rainfall`
returns one record with null `average_annual_rainfall` and null `source_url`
(the aggregate query has no `GROUP BY`, so it always emits one row), not a
no-data sentence and not an empty array. -/
theorem c10_empty_match_null_record (subdivision : String) (start_year end_year : Int)
    (db : List ClimateRow)
    (h : db.filter (climMatches subdivision start_year end_year) = []) :
    get_average_annual_rainfall subdivision start_year end_year db =
      [{ average_annual_rainfall := none, source_url := none }] := by
  simp [get_average_annual_rainfall, h]

/-- Witness for C10: a database whose only row does not match the queried
subdivision. -/
theorem c10_witness :
    get_average_annual_rainfall "Punjab" 2001 2001
      [{ subdivision := "Kerala", year := 2001, month := "jan",
         rainfall_mm := 5, source_url := "u" }] =
      [{ average_annual_rainfall := none, source_url := none }] :=
  c10_empty_match_null_record "Punjab" 2001 2001 _ (by decide)

/-! ## C5: empty crop match yields the literal no-data sentence -/

/-- C5: when no `agriculture_production` row matches the state and year,
`get_top_crops_by_production` returns the literal no-data sentence naming
the state and the year, never a (possibly empty) records result. -/
theorem c5_no_match_message (state : String) (year : Int) (top_m : Nat)
    (db : List AgriRow) (h : db.filter (agriMatches state year) = []) :
    get_top_crops_by_production state year top_m db =
      TopCropsResult.message
        ("No production data found for " ++ state ++ " in " ++ toString year ++ ".") ∧
    ∀ rs, get_top_crops_by_production state year top_m db ≠ TopCropsResult.records rs := by
  have hmain : get_top_crops_by_production state year top_m db =
      TopCropsResult.message
        ("No production data found for " ++ state ++ " in " ++ toString year ++ ".") := by
    simp [get_top_crops_by_production, h]
  refine ⟨hmain, ?_⟩
  intro rs hrs
  rw [hmain] at hrs
  exact TopCropsResult.noConfusion hrs

/-- Witness for C5: a database whose only row is for another state. -/
theorem c5_witness :
    get_top_crops_by_production "Punjab" 2010 3
      [{ state := "Kerala", district := "Idukki", crop := "Rice", year := 2010,
         season := some "Kharif", area_hectare := Cell.null,
         production_tonnes := 7, source_url := "u" }] =
      TopCropsResult.message "No production data found for Punjab in 2010." ∧
    ∀ rs, get_top_crops_by_production "Punjab" 2010 3
      [{ state := "Kerala", district := "Idukki", crop := "Rice", year := 2010,
         season := some "Kharif", area_hectare := Cell.null,
         production_tonnes := 7, source_url := "u" }] ≠ TopCropsResult.records rs :=
  c5_no_match_message "Punjab" 2010 3 _ (by decide)

/-! ## C1: agriculture transform output invariants -/

/-- C1: every row `transform_agri_data` outputs comes from an input record
whose `crop_year` parsed to a number (the row's integer `year` is its
truncation) and whose `production_` parsed to the row's numeric
`production_tonnes`; and any record with a missing `crop_year` or an
unparsable `production_` yields no output row. -/
theorem c1_transform_agri_clean (records : List RawAgriRecord) (url : String) :
    (∀ r ∈ transform_agri_data records url,
        ∃ rec ∈ records,
          transformAgriOne url rec = some r ∧
          (∃ y, toNumeric rec.crop_year = some y ∧ r.year = ratTrunc y) ∧
          toNumeric rec.production_ = some r.production_tonnes) ∧
    (∀ rec ∈ records,
        rec.crop_year = Cell.null ∨ toNumeric rec.production_ = none →
        transformAgriOne url rec = none) := by
  constructor
  · intro r hr
    rw [transform_agri_data, List.mem_filterMap] at hr
    obtain ⟨rec, hmem, heq⟩ := hr
    refine ⟨rec, hmem, heq, ?_⟩
    revert heq
    unfold transformAgriOne
    split
    · rename_i y p st di cr hy hp _ _ _
      intro heq
      obtain rfl := Option.some_injective _ heq
      exact ⟨⟨y, hy, rfl⟩, hp⟩
    · intro heq
      exact Option.noConfusion heq
  · intro rec _ hbad
    unfold transformAgriOne
    split
    · rename_i y p st di cr hy hp _ _ _
      rcases hbad with hnull | hnone
      · rw [hnull] at hy
        exact Option.noConfusion hy
      · rw [hnone] at hp
        exact Option.noConfusion hp
    · rfl

/-- Witness for C1: a record with a missing `crop_year` produces no row. -/
theorem c1_witness :
    transformAgriOne "u"
      { state_name := some "Punjab", district_name := some "Ludhiana",
        crop_year := Cell.null, season := some "Rabi", crop := some "Wheat",
        area_ := Cell.null, production_ := Cell.num 5 } = none := by
  have h := (c1_transform_agri_clean
    [{ state_name := some "Punjab", district_name := some "Ludhiana",
       crop_year := Cell.null, season := some "Rabi", crop := some "Wheat",
       area_ := Cell.null, production_ := Cell.num 5 }] "u").2
    { state_name := some "Punjab", district_name := some "Ludhiana",
      crop_year := Cell.null, season := some "Rabi", crop := some "Wheat",
      area_ := Cell.null, production_ := Cell.num 5 }
    (List.mem_singleton.mpr rfl) (Or.inl rfl)
  exact h

/-! ## C2: climate reshape produces twelve rows -/

/-- C2: one raw climate record with a subdivision, a parsable year and
parsable values in all twelve month columns melts to exactly 12 output
rows, one per month abbreviation in column order, each carrying that
record's (normalised) subdivision and (integer-cast) year. -/
theorem c2_climate_reshape_twelve (rec : RawClimateRecord) (url sd : String) (y : ℚ)
    (v1 v2 v3 v4 v5 v6 v7 v8 v9 v10 v11 v12 : ℚ)
    (hsd : rec.subdivision = some sd) (hy : toNumeric rec.year = some y)
    (h1 : toNumeric rec.jan = some v1) (h2 : toNumeric rec.feb = some v2)
    (h3 : toNumeric rec.mar = some v3) (h4 : toNumeric rec.apr = some v4)
    (h5 : toNumeric rec.may = some v5) (h6 : toNumeric rec.jun = some v6)
    (h7 : toNumeric rec.jul = some v7) (h8 : toNumeric rec.aug = some v8)
    (h9 : toNumeric rec.sep = some v9) (h10 : toNumeric rec.oct = some v10)
    (h11 : toNumeric rec.nov = some v11) (h12 : toNumeric rec.dec = some v12) :
    transform_climate_data [rec] url =
      [⟨cleanStr sd, ratTrunc y, "jan", v1, url⟩, ⟨cleanStr sd, ratTrunc y, "feb", v2, url⟩,
       ⟨cleanStr sd, ratTrunc y, "mar", v3, url⟩, ⟨cleanStr sd, ratTrunc y, "apr", v4, url⟩,
       ⟨cleanStr sd, ratTrunc y, "may", v5, url⟩, ⟨cleanStr sd, ratTrunc y, "jun", v6, url⟩,
       ⟨cleanStr sd, ratTrunc y, "jul", v7, url⟩, ⟨cleanStr sd, ratTrunc y, "aug", v8, url⟩,
       ⟨cleanStr sd, ratTrunc y, "sep", v9, url⟩, ⟨cleanStr sd, ratTrunc y, "oct", v10, url⟩,
       ⟨cleanStr sd, ratTrunc y, "nov", v11, url⟩, ⟨cleanStr sd, ratTrunc y, "dec", v12, url⟩] ∧
    (transform_climate_data [rec] url).length = 12 ∧
    ∀ row ∈ transform_climate_data [rec] url,
      row.subdivision = cleanStr sd ∧ row.year = ratTrunc y := by
  have he : transform_climate_data [rec] url =
      [⟨cleanStr sd, ratTrunc y, "jan", v1, url⟩, ⟨cleanStr sd, ratTrunc y, "feb", v2, url⟩,
       ⟨cleanStr sd, ratTrunc y, "mar", v3, url⟩, ⟨cleanStr sd, ratTrunc y, "apr", v4, url⟩,
       ⟨cleanStr sd, ratTrunc y, "may", v5, url⟩, ⟨cleanStr sd, ratTrunc y, "jun", v6, url⟩,
       ⟨cleanStr sd, ratTrunc y, "jul", v7, url⟩, ⟨cleanStr sd, ratTrunc y, "aug", v8, url⟩,
       ⟨cleanStr sd, ratTrunc y, "sep", v9, url⟩, ⟨cleanStr sd, ratTrunc y, "oct", v10, url⟩,
       ⟨cleanStr sd, ratTrunc y, "nov", v11, url⟩, ⟨cleanStr sd, ratTrunc y, "dec", v12, url⟩] := by
    simp [transform_climate_data, monthGetters, transformClimateOne,
      hsd, hy, h1, h2, h3, h4, h5, h6, h7, h8, h9, h10, h11, h12]
  refine ⟨he, by rw [he]; rfl, ?_⟩
  intro row hrow
  rw [he] at hrow
  simp only [List.mem_cons, List.not_mem_nil, or_false] at hrow
  rcases hrow with rfl | rfl | rfl | rfl | rfl | rfl | rfl | rfl | rfl | rfl | rfl | rfl <;>
    exact ⟨rfl, rfl⟩

/-- Witness for C2 at a fully concrete climate record. -/
theorem c2_witness :
    transform_climate_data
      [{ subdivision := some "punjab", year := Cell.num 2001,
         jan := Cell.num 1, feb := Cell.num 2, mar := Cell.num 3, apr := Cell.num 4,
         may := Cell.num 5, jun := Cell.num 6, jul := Cell.num 7, aug := Cell.num 8,
         sep := Cell.num 9, oct := Cell.num 10, nov := Cell.num 11, dec := Cell.num 12 }] "u" =
      [⟨cleanStr "punjab", ratTrunc 2001, "jan", 1, "u"⟩,
       ⟨cleanStr "punjab", ratTrunc 2001, "feb", 2, "u"⟩,
       ⟨cleanStr "punjab", ratTrunc 2001, "mar", 3, "u"⟩,
       ⟨cleanStr "punjab", ratTrunc 2001, "apr", 4, "u"⟩,
       ⟨cleanStr "punjab", ratTrunc 2001, "may", 5, "u"⟩,
       ⟨cleanStr "punjab", ratTrunc 2001, "jun", 6, "u"⟩,
       ⟨cleanStr "punjab", ratTrunc 2001, "jul", 7, "u"⟩,
       ⟨cleanStr "punjab", ratTrunc 2001, "aug", 8, "u"⟩,
       ⟨cleanStr "punjab", ratTrunc 2001, "sep", 9, "u"⟩,
       ⟨cleanStr "punjab", ratTrunc 2001, "oct", 10, "u"⟩,
       ⟨cleanStr "punjab", ratTrunc 2001, "nov", 11, "u"⟩,
       ⟨cleanStr "punjab", ratTrunc 2001, "dec", 12, "u"⟩] :=
  (c2_climate_reshape_twelve
    { subdivision := some "punjab", year := Cell.num 2001,
      jan := Cell.num 1, feb := Cell.num 2, mar := Cell.num 3, apr := Cell.num 4,
      may := Cell.num 5, jun := Cell.num 6, jul := Cell.num 7, aug := Cell.num 8,
      sep := Cell.num 9, oct := Cell.num 10, nov := Cell.num 11, dec := Cell.num 12 }
    "u" "punjab" 2001 1 2 3 4 5 6 7 8 9 10 11 12
    rfl rfl rfl rfl rfl rfl rfl rfl rfl rfl rfl rfl rfl rfl).1

/-! ## C8: single-year rainfall average equals the annual total -/

/-- C8: over a single-year range with at least one matching row, the
rainfall query's `YearlyTotals` CTE has exactly one group, so the function
returns exactly one record whose `average_annual_rainfall` is that year's
summed monthly rainfall (and whose `source_url` is a matching row's URL). -/
theorem c8_single_year_average (subdivision : String) (y : Int) (db : List ClimateRow)
    (hne : db.filter (climMatches subdivision y y) ≠ []) :
    get_average_annual_rainfall subdivision y y db =
      [{ average_annual_rainfall :=
           some (sumRainfall (db.filter (climMatches subdivision y y)))
         source_url :=
           ((db.filter (climMatches subdivision y y)).head?).map ClimateRow.source_url }] := by
  set matched := db.filter (climMatches subdivision y y) with hmatched
  have hyear : ∀ r ∈ matched, r.year = y := by
    intro r hr
    have hm := List.of_mem_filter hr
    simp only [climMatches, Bool.and_eq_true, decide_eq_true_eq] at hm
    omega
  have hmapne : matched.map ClimateRow.year ≠ [] := by
    intro hcon
    exact hne (List.map_eq_nil_iff.mp hcon)
  have hmapall : ∀ x ∈ matched.map ClimateRow.year, x = y := by
    intro x hx
    obtain ⟨r, hr, rfl⟩ := List.mem_map.mp hx
    exact hyear r hr
  have hdedup : (matched.map ClimateRow.year).dedup = [y] :=
    dedup_eq_singleton _ y hmapne hmapall
  have hfilter : matched.filter (fun r => r.year == y) = matched := by
    rw [List.filter_eq_self]
    intro r hr
    exact beq_iff_eq.mpr (hyear r hr)
  rw [get_average_annual_rainfall]
  rw [← hmatched, hdedup]
  simp only [List.map_cons, List.map_nil, hfilter]
  simp [div_one]

/-- Witness for C8: one matching row, the average equals its rainfall sum. -/
theorem c8_witness :
    get_average_annual_rainfall "Punjab" 2001 2001
      [{ subdivision := "Punjab", year := 2001, month := "jan",
         rainfall_mm := 5, source_url := "u" }] =
      [{ average_annual_rainfall :=
           some (sumRainfall (List.filter (climMatches "Punjab" 2001 2001)
             [{ subdivision := "Punjab", year := 2001, month := "jan",
                rainfall_mm := 5, source_url := "u" }]))
         source_url :=
           ((List.filter (climMatches "Punjab" 2001 2001)
             [{ subdivision := "Punjab", year := 2001, month := "jan",
                rainfall_mm := 5, source_url := "u" }]).head?).map ClimateRow.source_url }] :=
  c8_single_year_average "Punjab" 2001 _ (by decide)

/-! ## Shared facts about `get_top_crops_by_production` results -/

/-- When the function returns records, they are the sorted, truncated list
of per-crop aggregates. -/
lemma topCrops_records_eq (state : String) (year : Int) (top_m : Nat)
    (db : List AgriRow) (rs : List TopCropRecord)
    (h : get_top_crops_by_production state year top_m db = TopCropsResult.records rs) :
    rs = (List.insertionSort (fun a b : TopCropRecord => b.total_production ≤ a.total_production)
        (((db.filter (agriMatches state year)).map AgriRow.crop).dedup.map
          (cropRecord (db.filter (agriMatches state year))))).take top_m := by
  simp only [get_top_crops_by_production] at h
  split at h
  · exact TopCropsResult.noConfusion h
  · injection h with h
    exact h.symm

/-- Every returned record is the aggregate of one crop appearing among the
matching rows. -/
lemma topCrops_mem_records (state : String) (year : Int) (top_m : Nat)
    (db : List AgriRow) (rs : List TopCropRecord)
    (h : get_top_crops_by_production state year top_m db = TopCropsResult.records rs)
    (r : TopCropRecord) (hr : r ∈ rs) :
    ∃ c ∈ ((db.filter (agriMatches state year)).map AgriRow.crop).dedup,
      r = cropRecord (db.filter (agriMatches state year)) c := by
  have hrs := topCrops_records_eq state year top_m db rs h
  rw [hrs] at hr
  have hr1 := List.take_subset _ _ hr
  have hr2 := (List.perm_insertionSort
    (fun a b : TopCropRecord => b.total_production ≤ a.total_production) _).subset hr1
  obtain ⟨c, hc, hceq⟩ := List.mem_map.mp hr2
  exact ⟨c, hc, hceq.symm⟩

/-- A crop listed among the matching rows has a nonempty group, whose head
is a matching row of that crop. -/
lemma crop_group_head (matched : List AgriRow) (c : String)
    (hc : c ∈ (matched.map AgriRow.crop).dedup) :
    ∃ g, (matched.filter (fun x => x.crop == c)).head? = some g ∧
      g ∈ matched ∧ g.crop = c := by
  rw [List.mem_dedup] at hc
  obtain ⟨row, hrow, hrowc⟩ := List.mem_map.mp hc
  have hrowg : row ∈ matched.filter (fun x => x.crop == c) :=
    List.mem_filter.mpr ⟨hrow, beq_iff_eq.mpr hrowc⟩
  cases hg : matched.filter (fun x => x.crop == c) with
  | nil => rw [hg] at hrowg; exact absurd hrowg (List.not_mem_nil row)
  | cons g tl =>
    have hgmem : g ∈ matched.filter (fun x => x.crop == c) := by
      rw [hg]; exact List.mem_cons_self g tl
    exact ⟨g, rfl, (List.mem_filter.mp hgmem).1,
      beq_iff_eq.mp (List.mem_filter.mp hgmem).2⟩

/-- Evaluation of the query over a single-row table whose row matches:
one group, one record, the row's own crop, production and URL. -/
lemma topCrops_singleton (state : String) (year : Int) (top_m : Nat) (row : AgriRow)
    (hmatch : agriMatches state year row = true) (hm : 0 < top_m) :
    get_top_crops_by_production state year top_m [row] =
      TopCropsResult.records
        [{ crop := row.crop, total_production := duckdbCastInt row.production_tonnes,
           source_url := row.source_url }] := by
  have hf : List.filter (agriMatches state year) [row] = [row] := by
    simp [List.filter, hmatch]
  have hd : (([row].map AgriRow.crop).dedup) = [row.crop] := by simp
  have hgrp : List.filter (fun x => x.crop == row.crop) [row] = [row] := by
    simp [List.filter]
  have hsum : sumProduction [row] = row.production_tonnes := by
    simp [sumProduction]
  have hrec : cropRecord [row] row.crop =
      { crop := row.crop, total_production := duckdbCastInt row.production_tonnes,
        source_url := row.source_url } := by
    simp [cropRecord, hgrp, hsum]
  have htake : List.take top_m
      [({ crop := row.crop, total_production := duckdbCastInt row.production_tonnes,
          source_url := row.source_url } : TopCropRecord)] =
      [{ crop := row.crop, total_production := duckdbCastInt row.production_tonnes,
         source_url := row.source_url }] :=
    List.take_of_length_le (by simpa using hm)
  simp only [get_top_crops_by_production, hf, hd, List.map_cons, List.map_nil, hrec,
    List.insertionSort, List.orderedInsert, htake, List.isEmpty_cons, Bool.false_eq_true,
    if_false]

/-! ## C3: shape of the top-crops result -/

/-- C3: any records result of `get_top_crops_by_production` has at most
`top_m` records, pairwise-distinct crops each taken from the matching rows,
non-increasing `total_production`, and each record's `source_url` copied
from a matching row of its own crop group (hence non-null). -/
theorem c3_top_crops_shape (state : String) (year : Int) (top_m : Nat)
    (db : List AgriRow) (rs : List TopCropRecord) (_hm : 0 < top_m)
    (h : get_top_crops_by_production state year top_m db = TopCropsResult.records rs) :
    rs.length ≤ top_m ∧
    List.Pairwise (fun a b => b.total_production ≤ a.total_production) rs ∧
    (rs.map TopCropRecord.crop).Nodup ∧
    ∀ r ∈ rs, ∃ g ∈ db.filter (agriMatches state year),
      g.crop = r.crop ∧ r.source_url = g.source_url := by
  have hrs := topCrops_records_eq state year top_m db rs h
  refine ⟨?_, ?_, ?_, ?_⟩
  · rw [hrs]
    exact List.length_take_le _ _
  · haveI htot : IsTotal TopCropRecord
        (fun a b => b.total_production ≤ a.total_production) :=
      ⟨fun a b => Int.le_total _ _⟩
    haveI htr : IsTrans TopCropRecord
        (fun a b => b.total_production ≤ a.total_production) :=
      ⟨fun _ _ _ hab hbc => le_trans hbc hab⟩
    have hsort := List.sorted_insertionSort
      (fun a b : TopCropRecord => b.total_production ≤ a.total_production)
      (((db.filter (agriMatches state year)).map AgriRow.crop).dedup.map
        (cropRecord (db.filter (agriMatches state year))))
    rw [hrs]
    exact List.Pairwise.sublist (List.take_sublist _ _) hsort
  · have hmapeq :
        ((((db.filter (agriMatches state year)).map AgriRow.crop).dedup.map
          (cropRecord (db.filter (agriMatches state year)))).map TopCropRecord.crop) =
        ((db.filter (agriMatches state year)).map AgriRow.crop).dedup := by
      rw [List.map_map]
      have hcomp : (TopCropRecord.crop ∘ cropRecord (db.filter (agriMatches state year))) =
          id := funext fun c => rfl
      rw [hcomp, List.map_id]
    have hnod : ((((db.filter (agriMatches state year)).map AgriRow.crop).dedup.map
        (cropRecord (db.filter (agriMatches state year)))).map TopCropRecord.crop).Nodup := by
      rw [hmapeq]
      exact List.nodup_dedup _
    have hperm := (List.perm_insertionSort
      (fun a b : TopCropRecord => b.total_production ≤ a.total_production)
      (((db.filter (agriMatches state year)).map AgriRow.crop).dedup.map
        (cropRecord (db.filter (agriMatches state year))))).map TopCropRecord.crop
    have hnod2 := hperm.nodup_iff.mpr hnod
    rw [hrs]
    exact hnod2.sublist ((List.take_sublist _ _).map _)
  · intro r hr
    obtain ⟨c, hc, hceq⟩ := topCrops_mem_records state year top_m db rs h r hr
    obtain ⟨g, hghead, hgmem, hgcrop⟩ :=
      crop_group_head (db.filter (agriMatches state year)) c hc
    refine ⟨g, hgmem, ?_, ?_⟩
    · rw [hceq]
      exact hgcrop
    · rw [hceq]
      show ((List.filter (fun x => x.crop == c)
          (List.filter (agriMatches state year) db)).head?.map AgriRow.source_url).getD "" =
        g.source_url
      rw [hghead]
      rfl

/-- Witness for C3 at a concrete one-row database. -/
theorem c3_witness :
    (([{ crop := "Wheat", total_production := duckdbCastInt (mkRat 27 10),
         source_url := "u" }] : List TopCropRecord)).length ≤ 3 ∧
    List.Pairwise (fun a b : TopCropRecord => b.total_production ≤ a.total_production)
      [{ crop := "Wheat", total_production := duckdbCastInt (mkRat 27 10),
         source_url := "u" }] ∧
    (([{ crop := "Wheat", total_production := duckdbCastInt (mkRat 27 10),
         source_url := "u" }] : List TopCropRecord).map TopCropRecord.crop).Nodup ∧
    ∀ r ∈ ([{ crop := "Wheat", total_production := duckdbCastInt (mkRat 27 10),
               source_url := "u" }] : List TopCropRecord),
      ∃ g ∈ List.filter (agriMatches "Punjab" 2010)
        [{ state := "Punjab", district := "Ludhiana", crop := "Wheat", year := 2010,
           season := some "Rabi", area_hectare := Cell.null,
           production_tonnes := mkRat 27 10, source_url := "u" }],
        g.crop = r.crop ∧ r.source_url = g.source_url :=
  c3_top_crops_shape "Punjab" 2010 3 _ _ (by decide)
    (topCrops_singleton "Punjab" 2010 3
      { state := "Punjab", district := "Ludhiana", crop := "Wheat", year := 2010,
        season := some "Rabi", area_hectare := Cell.null,
        production_tonnes := mkRat 27 10, source_url := "u" }
      (by decide) (by decide))

/-! ## C4: the cast of the per-crop sum rounds, it does not truncate -/

/-- C4 counterexample: a single matching row with `production_tonnes = 2.7`.
DuckDB's `CAST(SUM(...) AS INTEGER)` rounds to the nearest integer, so the
returned `total_production` is `3`, while the claimed truncation toward
zero of the same sum is `2`. -/
theorem c4_counterexample :
    get_top_crops_by_production "Punjab" 2010 3
      [{ state := "Punjab", district := "Ludhiana", crop := "Wheat", year := 2010,
         season := some "Rabi", area_hectare := Cell.null,
         production_tonnes := mkRat 27 10, source_url := "u" }] =
      TopCropsResult.records
        [{ crop := "Wheat", total_production := 3, source_url := "u" }] ∧
    ratTrunc (sumProduction
      [{ state := "Punjab", district := "Ludhiana", crop := "Wheat", year := 2010,
         season := some "Rabi", area_hectare := Cell.null,
         production_tonnes := mkRat 27 10, source_url := "u" }]) = 2 ∧
    (3 : Int) ≠ 2 := by
  refine ⟨?_, ?_, by decide⟩
  · rw [topCrops_singleton "Punjab" 2010 3 _ (by decide) (by decide)]
    decide
  · have hsum : sumProduction
        [{ state := "Punjab", district := "Ludhiana", crop := "Wheat", year := 2010,
           season := some "Rabi", area_hectare := Cell.null,
           production_tonnes := mkRat 27 10, source_url := "u" }] = mkRat 27 10 := by
      simp [sumProduction]
    rw [hsum]
    decide

/-- C4 (amended): each returned record's `total_production` is the per-crop
sum of `production_tonnes`, cast to integer by rounding to the nearest
integer (ties to even), DuckDB's float→integer cast semantics. -/
theorem c4_amended_rounded (state : String) (year : Int) (top_m : Nat)
    (db : List AgriRow) (rs : List TopCropRecord)
    (h : get_top_crops_by_production state year top_m db = TopCropsResult.records rs) :
    ∀ r ∈ rs, r.total_production =
      duckdbCastInt (sumProduction
        ((db.filter (agriMatches state year)).filter (fun x => x.crop == r.crop))) := by
  intro r hr
  obtain ⟨c, _, hceq⟩ := topCrops_mem_records state year top_m db rs h r hr
  subst hceq
  rfl

/-- Witness for C4's amended theorem at a concrete one-row database and
its one returned record. -/
theorem c4_amended_witness :
    ({ crop := "Wheat", total_production := duckdbCastInt (mkRat 27 10),
       source_url := "u" } : TopCropRecord).total_production =
      duckdbCastInt (sumProduction
        ((List.filter (agriMatches "Punjab" 2010)
          [{ state := "Punjab", district := "Ludhiana", crop := "Wheat", year := 2010,
             season := some "Rabi", area_hectare := Cell.null,
             production_tonnes := mkRat 27 10, source_url := "u" }]).filter
          (fun x => x.crop ==
            ({ crop := "Wheat",
               total_production := duckdbCastInt (mkRat 27 10),
               source_url := "u" } : TopCropRecord).crop))) :=
  c4_amended_rounded "Punjab" 2010 3 _ _
    (topCrops_singleton "Punjab" 2010 3
      { state := "Punjab", district := "Ludhiana", crop := "Wheat", year := 2010,
        season := some "Rabi", area_hectare := Cell.null,
        production_tonnes := mkRat 27 10, source_url := "u" }
      (by decide) (by decide))
    { crop := "Wheat", total_production := duckdbCastInt (mkRat 27 10), source_url := "u" }
    (List.mem_singleton.mpr rfl)

/-! ## Character-level facts about `Char.toLower` -/

/-- `Char.toLower` fixes every character outside `A`–`Z`. -/
lemma char_toLower_eq_self {c : Char} (h : ¬(65 ≤ c.toNat ∧ c.toNat ≤ 90)) :
    c.toLower = c := by
  unfold Char.toLower
  exact if_neg fun hc => h ⟨hc.1, hc.2⟩

/-- Lowercasing an uppercase ASCII letter lands in `a`–`z`. -/
lemma char_toLower_lower_range {c : Char} (h : 65 ≤ c.toNat ∧ c.toNat ≤ 90) :
    97 ≤ c.toLower.toNat ∧ c.toLower.toNat ≤ 122 := by
  have key : ∀ n, 65 ≤ n → n ≤ 90 →
      97 ≤ (Char.ofNat (n + 32)).toNat ∧ (Char.ofNat (n + 32)).toNat ≤ 122 := by
    intro n hn1 hn2
    interval_cases n <;> exact ⟨by decide, by decide⟩
  unfold Char.toLower
  rw [if_pos ⟨h.1, h.2⟩]
  exact key c.toNat h.1 h.2

/-- For a target character that is neither an uppercase nor a lowercase
ASCII letter (such as the wildcards `%` and `_`), lowercasing changes
nothing about equality with it. -/
lemma char_toLower_eq_nonletter {c d : Char}
    (hd1 : ¬(65 ≤ d.toNat ∧ d.toNat ≤ 90)) (hd2 : ¬(97 ≤ d.toNat ∧ d.toNat ≤ 122)) :
    c.toLower = d ↔ c = d := by
  constructor
  · intro h
    by_cases hc : 65 ≤ c.toNat ∧ c.toNat ≤ 90
    · exact absurd (h ▸ char_toLower_lower_range hc) hd2
    · rwa [char_toLower_eq_self hc] at h
  · intro h
    subst h
    exact char_toLower_eq_self hd1

/-! ## `likeMatch` is determined by the lowercased pattern -/

/-- `suffixMatch` only depends on the continuation extensionally. -/
lemma suffixMatch_congr {k1 k2 : List Char → Bool} (hk : ∀ s, k1 s = k2 s) :
    ∀ s, suffixMatch k1 s = suffixMatch k2 s := by
  intro s
  induction s with
  | nil => simp [suffixMatch, hk]
  | cons c s ih => simp [suffixMatch, hk, ih]

/-- Two patterns with the same lowercasing match exactly the same strings:
`ILIKE` is case-insensitive in its pattern. -/
lemma likeMatch_congr : ∀ p1 p2 : List Char,
    p1.map Char.toLower = p2.map Char.toLower →
    ∀ s, likeMatch p1 s = likeMatch p2 s := by
  intro p1
  induction p1 with
  | nil =>
    intro p2 hmap s
    cases p2 with
    | nil => rfl
    | cons c t => simp at hmap
  | cons c1 t1 ih =>
    intro p2 hmap s
    cases p2 with
    | nil => simp at hmap
    | cons c2 t2 =>
      simp only [List.map_cons, List.cons.injEq] at hmap
      obtain ⟨hc, ht⟩ := hmap
      have htail := ih t2 ht
      by_cases h1 : c1 = '%'
      · have h2 : c2 = '%' := by
          rw [← char_toLower_eq_nonletter (d := '%') (by decide) (by decide), ← hc, h1]
          rfl
        subst h1; subst h2
        simp only [likeMatch, if_pos rfl]
        exact suffixMatch_congr htail s
      · have h2 : c2 ≠ '%' := by
          intro hcon
          apply h1
          rw [← char_toLower_eq_nonletter (d := '%') (by decide) (by decide), hc, hcon]
          rfl
        by_cases h3 : c1 = '_'
        · have h4 : c2 = '_' := by
            rw [← char_toLower_eq_nonletter (d := '_') (by decide) (by decide), ← hc, h3]
            rfl
          subst h3; subst h4
          simp only [likeMatch, if_neg h1, if_neg h2, if_pos rfl]
          cases s with
          | nil => rfl
          | cons d s' => exact htail s'
        · have h4 : c2 ≠ '_' := by
            intro hcon
            apply h3
            rw [← char_toLower_eq_nonletter (d := '_') (by decide) (by decide), hc, hcon]
            rfl
          cases s with
          | nil =>
            simp only [likeMatch, if_neg h1, if_neg h2, if_neg h3, if_neg h4]
          | cons d s' =>
            simp only [likeMatch, if_neg h1, if_neg h2, if_neg h3, if_neg h4]
            show ((c1.toLower == d.toLower) && likeMatch t1 s') =
              ((c2.toLower == d.toLower) && likeMatch t2 s')
            rw [hc, htail s']

/-- `agriMatches` only depends on the state argument through its
lowercasing. -/
lemma agriMatches_congr (s1 s2 : String) (year : Int)
    (h : s1.data.map Char.toLower = s2.data.map Char.toLower) :
    agriMatches s1 year = agriMatches s2 year := by
  funext row
  rw [agriMatches, agriMatches, ilike, ilike, likeMatch_congr s1.data s2.data h]

/-! ## C7: case variants of the state argument -/

/-- C7 counterexample: over an empty table, `state="punjab"` and
`state="Punjab"` do not yield identical results — each no-data sentence
echoes its own argument spelling. -/
theorem c7_counterexample :
    get_top_crops_by_production "punjab" 2010 3 [] ≠
      get_top_crops_by_production "Punjab" 2010 3 [] := by
  decide

/-- C7 (amended): two case variants of the state string select exactly the
same rows, and any records result for one is the records result for the
other; in the no-match case each returns the no-data sentence echoing its
own spelling of the state, so only that echoed text differs. -/
theorem c7_amended_case_insensitive (s1 s2 : String) (year : Int) (top_m : Nat)
    (db : List AgriRow)
    (h : s1.data.map Char.toLower = s2.data.map Char.toLower) :
    db.filter (agriMatches s1 year) = db.filter (agriMatches s2 year) ∧
    (∀ rs, get_top_crops_by_production s1 year top_m db = TopCropsResult.records rs ↔
        get_top_crops_by_production s2 year top_m db = TopCropsResult.records rs) ∧
    (get_top_crops_by_production s1 year top_m db =
        TopCropsResult.message
          ("No production data found for " ++ s1 ++ " in " ++ toString year ++ ".") ↔
      get_top_crops_by_production s2 year top_m db =
        TopCropsResult.message
          ("No production data found for " ++ s2 ++ " in " ++ toString year ++ ".")) := by
  have hfil : db.filter (agriMatches s1 year) = db.filter (agriMatches s2 year) := by
    rw [agriMatches_congr s1 s2 year h]
  refine ⟨hfil, ?_, ?_⟩
  · intro rs
    simp only [get_top_crops_by_production, hfil]
    split
    · simp
    · exact Iff.rfl
  · simp only [get_top_crops_by_production, hfil]
    split
    · simp
    · simp

/-- Witness for C7's amended theorem: `"punjab"` and `"Punjab"` on a
concrete one-row database. -/
theorem c7_amended_witness :
    ([({ state := "Punjab", district := "Ludhiana", crop := "Wheat", year := 2010,
         season := some "Rabi", area_hectare := Cell.null,
         production_tonnes := 7, source_url := "u" } : AgriRow)]).filter
        (agriMatches "punjab" 2010) =
      ([({ state := "Punjab", district := "Ludhiana", crop := "Wheat", year := 2010,
           season := some "Rabi", area_hectare := Cell.null,
           production_tonnes := 7, source_url := "u" } : AgriRow)]).filter
        (agriMatches "Punjab" 2010) ∧
    (∀ rs, get_top_crops_by_production "punjab" 2010 3
        [({ state := "Punjab", district := "Ludhiana", crop := "Wheat", year := 2010,
            season := some "Rabi", area_hectare := Cell.null,
            production_tonnes := 7, source_url := "u" } : AgriRow)] =
          TopCropsResult.records rs ↔
        get_top_crops_by_production "Punjab" 2010 3
        [({ state := "Punjab", district := "Ludhiana", crop := "Wheat", year := 2010,
            season := some "Rabi", area_hectare := Cell.null,
            production_tonnes := 7, source_url := "u" } : AgriRow)] =
          TopCropsResult.records rs) ∧
    (get_top_crops_by_production "punjab" 2010 3
        [({ state := "Punjab", district := "Ludhiana", crop := "Wheat", year := 2010,
            season := some "Rabi", area_hectare := Cell.null,
            production_tonnes := 7, source_url := "u" } : AgriRow)] =
        TopCropsResult.message
          ("No production data found for " ++ "punjab" ++ " in " ++ toString (2010 : Int) ++ ".") ↔
      get_top_crops_by_production "Punjab" 2010 3
        [({ state := "Punjab", district := "Ludhiana", crop := "Wheat", year := 2010,
            season := some "Rabi", area_hectare := Cell.null,
            production_tonnes := 7, source_url := "u" } : AgriRow)] =
        TopCropsResult.message
          ("No production data found for " ++ "Punjab" ++ " in " ++ toString (2010 : Int) ++ ".")) :=
  c7_amended_case_insensitive "punjab" "Punjab" 2010 3 _ (by decide)

/-! ## C6: the state match is whole-value, not substring -/

/-- C6 counterexample: the stored state `"East Punjab"` contains the
supplied string `"Punjab"` up to case (witnessed by the explicit
decomposition of its lowercasing), yet the row is not selected and the
query reports no data. -/
theorem c6_counterexample :
    "East Punjab".data.map Char.toLower =
      "east ".data ++ "Punjab".data.map Char.toLower ++ [] ∧
    agriMatches "Punjab" 2010
      { state := "East Punjab", district := "Amritsar", crop := "Wheat", year := 2010,
        season := some "Rabi", area_hectare := Cell.null,
        production_tonnes := 7, source_url := "u" } = false ∧
    get_top_crops_by_production "Punjab" 2010 3
      [{ state := "East Punjab", district := "Amritsar", crop := "Wheat", year := 2010,
         season := some "Rabi", area_hectare := Cell.null,
         production_tonnes := 7, source_url := "u" }] =
      TopCropsResult.message "No production data found for Punjab in 2010." := by
  exact ⟨by decide, by decide, by decide⟩

/-- Auxiliary for C6 (amended): a wildcard-free pattern `ILIKE`-matches a
string iff the two lowercase to the same character list. -/
lemma likeMatch_no_wildcards : ∀ p s : List Char,
    (∀ c ∈ p, c ≠ '%' ∧ c ≠ '_') →
    likeMatch p s = (p.map Char.toLower == s.map Char.toLower) := by
  intro p
  induction p with
  | nil =>
    intro s _
    cases s with
    | nil => rfl
    | cons d s' => rfl
  | cons c t ih =>
    intro s h
    have hc := h c (List.mem_cons_self c t)
    have ht : ∀ x ∈ t, x ≠ '%' ∧ x ≠ '_' := fun x hx => h x (List.mem_cons_of_mem c hx)
    cases s with
    | nil =>
      simp only [likeMatch, if_neg hc.1, if_neg hc.2]
      rfl
    | cons d s' =>
      simp only [likeMatch, if_neg hc.1, if_neg hc.2]
      show ((c.toLower == d.toLower) && likeMatch t s') =
        ((c :: t).map Char.toLower == (d :: s').map Char.toLower)
      have hbeq : ((c :: t).map Char.toLower == (d :: s').map Char.toLower) =
          ((c.toLower == d.toLower) && (t.map Char.toLower == s'.map Char.toLower)) := rfl
      rw [hbeq, ih s' ht]

/-- C6 (amended): the state argument is matched case-insensitively as a SQL
`LIKE` pattern against the entire stored state; with no wildcard characters
in the argument this is case-insensitive equality of whole strings, not
substring containment. -/
theorem c6_amended_whole_value_match (state : String) (year : Int) (row : AgriRow)
    (hp : ∀ c ∈ state.data, c ≠ '%' ∧ c ≠ '_') :
    agriMatches state year row =
      ((state.data.map Char.toLower == row.state.data.map Char.toLower) &&
        (row.year == year)) := by
  rw [agriMatches, ilike, likeMatch_no_wildcards state.data row.state.data hp]

/-- Witness for C6's amended theorem: `"punjab"` against the stored state
`"Punjab"` reduces to case-insensitive whole-string equality. -/
theorem c6_amended_witness :
    agriMatches "punjab" 2010
      { state := "Punjab", district := "Ludhiana", crop := "Wheat", year := 2010,
        season := some "Rabi", area_hectare := Cell.null,
        production_tonnes := 7, source_url := "u" } =
      (("punjab".data.map Char.toLower == "Punjab".data.map Char.toLower) &&
        ((2010 : Int) == (2010 : Int))) :=
  c6_amended_whole_value_match "punjab" 2010
    { state := "Punjab", district := "Ludhiana", crop := "Wheat", year := 2010,
      season := some "Rabi", area_hectare := Cell.null,
      production_tonnes := 7, source_url := "u" }
    (by decide)

end Samarth
